import Mathlib

/-!
# Verification of the ride-sharing booking backend

Shallow embedding of the booking / ride / review controllers of the
`web-internship-4-backend` Express + Mongoose application, together with
proofs of the specification claims about them.

Modelling conventions:
* Mongo documents become Lean structures; object ids become `Nat`.
* JS numbers holding money or ratings become `ℚ`; counters become `Nat`;
  a ride's `availableSeats` becomes `Int` (it is decremented by plain
  subtraction in the source).
* `Model.find?` style lookups become `List.find?`; `findOneAndUpdate`,
  `findByIdAndUpdate` and `save` (which rewrite one document) become a
  first-match list update; `updateMany` becomes `List.map`; `deleteOne`
  becomes a first-match removal.
* Each controller is a pure function `AppState → … → Except Err AppState`;
  returning `.error e` models the controller responding with an error
  before persisting anything, so the stored state is unchanged.
* Mongoose re-validates a document on `save()` (not on
  `findByIdAndUpdate`/`updateMany`, which skip validators by default);
  the saves that can be reached with a freshly modified document carry the
  corresponding schema checks (`rideValid`, `bookingValid`, ratings 1–5).
* Dates become `Nat` clock values passed in as `now`; route text fields
  (origin/destination addresses, notes) that no claim mentions are omitted
  from the structures.
-/

/-- Booking status enumeration of `models/Booking.js`. -/
inductive BStatus
  | pending
  | confirmed
  | comingForPickup
  | pickedUp
  | inTransit
  | droppedOff
  | completed
  | cancelled
  | rejected
deriving Repr, DecidableEq

/-- Payment status enumeration of `models/Booking.js`. -/
inductive PayStatus
  | pending
  | paid
  | refunded
deriving Repr, DecidableEq

/-- Who cancelled a booking (`cancelledBy` enum). -/
inductive Canceller
  | passenger
  | driver
deriving Repr, DecidableEq

/-- Ride status enumeration of `models/Ride.js`. -/
inductive RStatus
  | scheduled
  | inProgress
  | completed
  | cancelled
deriving Repr, DecidableEq

/-- Review type enumeration of `models/Review.js`. -/
inductive RevType
  | passengerToDriver
  | driverToPassenger
deriving Repr, DecidableEq

/-- A booking document (`models/Booking.js`), restricted to the fields the
claims are about.  All per-transition timestamps of the schema are present:
`confirmedAt`, `comingForPickupAt`, `pickedUpAt`, `droppedOffAt`,
`completedAt` and `cancelledAt` — the schema has no in-transit timestamp
field. -/
structure Booking where
  id : Nat
  ride : Nat
  passenger : Nat
  seatsBooked : Nat
  farePerSeat : ℚ
  totalFare : ℚ
  status : BStatus
  paymentStatus : PayStatus
  cancelledBy : Option Canceller
  confirmedAt : Option Nat
  comingForPickupAt : Option Nat
  pickedUpAt : Option Nat
  droppedOffAt : Option Nat
  completedAt : Option Nat
  cancelledAt : Option Nat
deriving Repr, DecidableEq

/-- A ride document (`models/Ride.js`), restricted to the fields the claims
are about. -/
structure Ride where
  id : Nat
  driver : Nat
  departureDate : Nat
  departureTime : String
  totalSeats : Nat
  availableSeats : Int
  farePerSeat : ℚ
  description : Option String
  status : RStatus
  passengers : List Nat
deriving Repr, DecidableEq

/-- A driver profile document (`models/DriverProfile.js`), restricted to the
fields the claims are about. -/
structure DriverProfile where
  user : Nat
  rating : ℚ
  totalRides : Nat
  totalEarnings : ℚ
deriving Repr, DecidableEq

/-- A review document (`models/Review.js`), restricted to the fields the
claims are about.  `createdAt` is the mongoose timestamp used by the
24-hour edit window. -/
structure Review where
  id : Nat
  booking : Nat
  ride : Nat
  reviewer : Nat
  reviewee : Nat
  reviewType : RevType
  rating : ℚ
  isVisible : Bool
  createdAt : Nat
deriving Repr, DecidableEq

/-- The persistent store: one collection per model, plus counters standing
in for Mongo object-id generation. -/
structure AppState where
  rides : List Ride
  bookings : List Booking
  profiles : List DriverProfile
  reviews : List Review
  nextBookingId : Nat
  nextReviewId : Nat
deriving Repr, DecidableEq

/-- The error responses the controllers can produce (each corresponds to a
`res.status(4xx/5xx).json(...)` return in the source). -/
inductive Err
  | seatsRequired
  | pickupRequired
  | dropoffRequired
  | rideNotFound
  | rideNotBookable
  | insufficientSeats (available : Int)
  | alreadyBooked
  | ownRide
  | bookingNotFound
  | notAuthorized
  | respondNotPending
  | invalidStatusTarget (valid : List BStatus)
  | invalidTransition (current : BStatus) (allowed : List BStatus)
  | rideUpdateHasBookings
  | validationFailed
  | reviewNotFound
  | invalidRating
  | notCompleted
  | notParticipant
  | duplicateReview
  | editWindowExpired
  | serverFault
deriving Repr, DecidableEq

/-- Update the first list element satisfying `p` (mongoose `save` /
`findOneAndUpdate` / `findByIdAndUpdate` semantics on a keyed collection). -/
def updateFirst (p : α → Bool) (f : α → α) : List α → List α
  | [] => []
  | x :: xs => if p x then f x :: xs else x :: updateFirst p f xs

/-- Remove the first list element satisfying `p` (`deleteOne`). -/
def removeFirst (p : α → Bool) : List α → List α
  | [] => []
  | x :: xs => if p x then xs else x :: removeFirst p xs

/-- `Ride.findById`. -/
def findRide (st : AppState) (rid : Nat) : Option Ride :=
  st.rides.find? (fun r => r.id == rid)

/-- `Ride.findOne({_id, driver})` — lookup restricted to the owning driver. -/
def findRideOwned (st : AppState) (rid uid : Nat) : Option Ride :=
  st.rides.find? (fun r => r.id == rid && r.driver == uid)

/-- `Booking.findById`. -/
def findBooking (st : AppState) (bid : Nat) : Option Booking :=
  st.bookings.find? (fun b => b.id == bid)

/-- `DriverProfile.findOne({user})`. -/
def findProfile (st : AppState) (uid : Nat) : Option DriverProfile :=
  st.profiles.find? (fun p => p.user == uid)

/-- Mongoose schema validation of a ride on `save()` (`totalSeats` 1–8,
`farePerSeat ≥ 0`). -/
def rideValid (r : Ride) : Bool :=
  1 ≤ r.totalSeats && r.totalSeats ≤ 8 && 0 ≤ r.farePerSeat

/-- Mongoose schema validation of a booking on `save()`
(`seatsBooked ≥ 1`). -/
def bookingValid (b : Booking) : Bool :=
  1 ≤ b.seatsBooked

/-! ## Booking controller (`bookingController.js`)

`bookRide` (POST /api/bookings) runs as three separate awaited database
operations with no transaction or session around them: `Ride.findById`
reads the ride, `Booking.create` inserts the booking after the in-memory
checks, and a later `ride.save()` writes the decremented seat count that
was computed from the snapshot read first.  Each database operation is
individually atomic, but between two of them another request may run.  The
embedding therefore splits the controller at its `ride.save()` boundary:
`bookRideStep1` is everything up to and including `Booking.create`, and
`bookRideStep2` is the `ride.save()` write; the controller itself is their
sequential composition.  (The `ride.save()` schema re-validation concerns
only fields this write never modifies, so it is not repeated here.) -/

/-- The ride write that `ride.save()` will perform, computed from the
snapshot read by `Ride.findById` (mongoose writes the modified paths
`availableSeats` and `passengers`). -/
structure PendingRideSave where
  rid : Nat
  newAvailable : Int
  newPassengers : List Nat
deriving Repr, DecidableEq

/-- First atomic phase of `bookRide`: request validation, the seat check
against the snapshot, the duplicate-booking and own-ride checks, and the
`Booking.create` insert with the fare snapshotted from the ride. -/
def bookRideStep1 (st : AppState) (uid rid seats : Nat)
    (pickupAddr dropoffAddr : String) :
    Except Err (AppState × PendingRideSave) :=
  if seats < 1 then .error .seatsRequired
  else if pickupAddr = "" then .error .pickupRequired
  else if dropoffAddr = "" then .error .dropoffRequired
  else match findRide st rid with
  | none => .error .rideNotFound
  | some ride =>
    if ride.status ≠ .scheduled then .error .rideNotBookable
    else if ride.availableSeats < (seats : Int) then
      .error (.insufficientSeats ride.availableSeats)
    else if st.bookings.any (fun b =>
        b.ride == rid && b.passenger == uid
          && !(b.status == .cancelled) && !(b.status == .rejected)) then
      .error .alreadyBooked
    else if ride.driver = uid then .error .ownRide
    else
      let booking : Booking :=
        { id := st.nextBookingId
          ride := rid
          passenger := uid
          seatsBooked := seats
          farePerSeat := ride.farePerSeat
          totalFare := (seats : ℚ) * ride.farePerSeat
          status := .pending
          paymentStatus := .pending
          cancelledBy := none
          confirmedAt := none
          comingForPickupAt := none
          pickedUpAt := none
          droppedOffAt := none
          completedAt := none
          cancelledAt := none }
      .ok ({ st with
              bookings := st.bookings ++ [booking]
              nextBookingId := st.nextBookingId + 1 },
           { rid := rid
             newAvailable := ride.availableSeats - (seats : Int)
             newPassengers := ride.passengers ++ [booking.id] })

/-- Second atomic phase of `bookRide`: the `ride.save()` write of the
modified paths computed in phase one. -/
def bookRideStep2 (st : AppState) (ps : PendingRideSave) : AppState :=
  let rides' := updateFirst (fun r => r.id == ps.rid)
    (fun r => { r with availableSeats := ps.newAvailable,
                       passengers := ps.newPassengers }) st.rides
  { st with rides := rides' }

/-- `bookRide` (POST /api/bookings) as one request sees it: phase one
followed immediately by the `ride.save()` of phase two. -/
def bookRide (st : AppState) (uid rid seats : Nat)
    (pickupAddr dropoffAddr : String) : Except Err AppState :=
  (bookRideStep1 st uid rid seats pickupAddr dropoffAddr).map
    (fun x => bookRideStep2 x.1 x.2)

/-- A driver's answer in `respondToBooking`. -/
inductive RespondAction
  | confirm
  | reject
deriving Repr, DecidableEq

/-- `respondToBooking` (PATCH /api/bookings/:id/respond): only the owning
driver, only from `pending`.  Confirm stamps `confirmedAt`; reject releases
the seats back to the ride (`$inc availableSeats`, `$pull passengers`) and
marks the booking `rejected`. -/
def respondToBooking (st : AppState) (uid bid : Nat)
    (action : RespondAction) (now : Nat) : Except Err AppState :=
  match findBooking st bid with
  | none => .error .bookingNotFound
  | some booking =>
    match findRide st booking.ride with
    | none => .error .serverFault
    | some ride =>
      if ride.driver ≠ uid then .error .notAuthorized
      else if booking.status ≠ .pending then .error .respondNotPending
      else
        match action with
        | .confirm =>
          let b' := { booking with status := .confirmed, confirmedAt := some now }
          if bookingValid b' then
            .ok { st with
              bookings := updateFirst (fun b => b.id == bid) (fun _ => b') st.bookings }
          else .error .validationFailed
        | .reject =>
          let b' := { booking with status := .rejected }
          if bookingValid b' then
            .ok { st with
              rides := updateFirst (fun r => r.id == booking.ride)
                (fun r => { r with
                  availableSeats := r.availableSeats + (booking.seatsBooked : Int)
                  passengers := r.passengers.filter (fun p => !(p == bid)) }) st.rides
              bookings := updateFirst (fun b => b.id == bid) (fun _ => b') st.bookings }
          else .error .validationFailed

/-- The `validStatuses` list of `updateBookingStatus`: the five targets a
driver may name in the request body. -/
def validStatuses : List BStatus :=
  [.comingForPickup, .pickedUp, .inTransit, .droppedOff, .completed]

/-- The `statusFlow` lookup table of `updateBookingStatus`: current status to
its allowed-next list; statuses absent from the table map to `none`. -/
def statusFlow : BStatus → Option (List BStatus)
  | .confirmed => some [.comingForPickup]
  | .comingForPickup => some [.pickedUp]
  | .pickedUp => some [.inTransit]
  | .inTransit => some [.droppedOff]
  | .droppedOff => some [.completed]
  | _ => none

/-- Apply the `switch (status)` block of `updateBookingStatus` to a booking:
stamp the timestamp belonging to the new status.  The source switch has
cases for `coming-for-pickup`, `picked-up`, `dropped-off` and `completed`
only — `in-transit` falls through and stamps nothing.  `completed` also
marks the booking paid. -/
def applyStatusStamp (b : Booking) (target : BStatus) (now : Nat) : Booking :=
  match target with
  | .comingForPickup => { b with status := target, comingForPickupAt := some now }
  | .pickedUp => { b with status := target, pickedUpAt := some now }
  | .droppedOff => { b with status := target, droppedOffAt := some now }
  | .completed =>
    { b with status := target, completedAt := some now, paymentStatus := .paid }
  | _ => { b with status := target }

/-- `DriverProfile.findOneAndUpdate({user}, {$inc: {totalRides: 1,
totalEarnings: fare}})` — first-match increment. -/
def incDriverStats (profiles : List DriverProfile) (uid : Nat) (fare : ℚ) :
    List DriverProfile :=
  updateFirst (fun p => p.user == uid)
    (fun p => { p with totalRides := p.totalRides + 1,
                       totalEarnings := p.totalEarnings + fare }) profiles

/-- `updateBookingStatus` (PATCH /api/bookings/:id/status): the driver-side
ride-progress pipeline.  Validates the target against `validStatuses`, then
against `statusFlow`; on the `completed` transition additionally marks the
booking paid and increments the driver's `totalRides`/`totalEarnings`. -/
def updateBookingStatus (st : AppState) (uid bid : Nat)
    (target : BStatus) (now : Nat) : Except Err AppState :=
  if ¬ validStatuses.contains target then .error (.invalidStatusTarget validStatuses)
  else match findBooking st bid with
  | none => .error .bookingNotFound
  | some booking =>
    match findRide st booking.ride with
    | none => .error .serverFault
    | some ride =>
      if ride.driver ≠ uid then .error .notAuthorized
      else
        match statusFlow booking.status with
        | none => .error (.invalidTransition booking.status [])
        | some allowed =>
          if ¬ allowed.contains target then
            .error (.invalidTransition booking.status allowed)
          else
            let b' := applyStatusStamp booking target now
            let profiles' :=
              if target = .completed then
                incDriverStats st.profiles uid booking.totalFare
              else st.profiles
            if bookingValid b' then
              .ok { st with
                profiles := profiles'
                bookings := updateFirst (fun b => b.id == bid) (fun _ => b') st.bookings }
            else .error .validationFailed

/-! ## Ride controller (`rideController.js`) -/

/-- The update document of the cascade `Booking.updateMany({ride, status:
{$in: ["pending", "confirmed"]}}, {status: "cancelled", cancelledBy:
"driver", cancelledAt})`, as its effect on one booking. -/
def cascadeCancel (rid now : Nat) (b : Booking) : Booking :=
  if b.ride == rid && (b.status == .pending || b.status == .confirmed) then
    { b with status := .cancelled, cancelledBy := some .driver,
             cancelledAt := some now }
  else b

/-- `updateRideStatus` (PATCH /api/rides/:id/status): sets the ride's status
(the request is validated against the four ride statuses, which the typed
`RStatus` argument already guarantees); when the new status is `cancelled`,
the `Booking.updateMany` cascade force-cancels every `pending` or
`confirmed` booking of the ride with `cancelledBy: "driver"` — and touches
nothing else (in particular no seat release). -/
def updateRideStatus (st : AppState) (uid rid : Nat)
    (target : RStatus) (now : Nat) : Except Err AppState :=
  match findRideOwned st rid uid with
  | none => .error .rideNotFound
  | some ride =>
    let ride' := { ride with status := target }
    if rideValid ride' then
      let st' := { st with
        rides := updateFirst (fun r => r.id == rid) (fun _ => ride') st.rides }
      if target = .cancelled then
        .ok { st' with bookings := st'.bookings.map (cascadeCancel rid now) }
      else .ok st'
    else .error .validationFailed

/-- The update payload of `updateRide` (PUT /api/rides/:id), restricted to
the `allowedUpdates` fields the model carries (`preferences` and `stops`
are omitted from the embedding). -/
structure RideUpdates where
  departureDate : Option Nat
  departureTime : Option String
  totalSeats : Option Nat
  farePerSeat : Option ℚ
  description : Option String
deriving Repr, DecidableEq

/-- The field-copy loop of `updateRide` plus its seat reset: every provided
field is written onto the ride, and `if (updates.totalSeats)` —
a JS truthiness test, so a provided 0 does not trigger it — resets
`availableSeats` to exactly the new `totalSeats`. -/
def applyRideUpdates (r : Ride) (u : RideUpdates) : Ride :=
  let r1 := { r with
    departureDate := u.departureDate.getD r.departureDate
    departureTime := u.departureTime.getD r.departureTime
    totalSeats := u.totalSeats.getD r.totalSeats
    farePerSeat := u.farePerSeat.getD r.farePerSeat
    description := u.description.or r.description }
  if u.totalSeats.getD 0 ≠ 0 then
    { r1 with availableSeats := (u.totalSeats.getD 0 : Int) }
  else r1

/-- `Booking.exists({ride, status: {$in: ["confirmed", "completed"]}})` —
the guard of `updateRide`.  Note it names exactly these two statuses, not
the intermediate progress statuses. -/
def hasBlockingBookings (st : AppState) (rid : Nat) : Bool :=
  st.bookings.any (fun b =>
    b.ride == rid && (b.status == .confirmed || b.status == .completed))

/-- `updateRide` (PUT /api/rides/:id): refuses when
`hasBlockingBookings`; otherwise applies the payload and saves (mongoose
re-validating the document). -/
def updateRide (st : AppState) (uid rid : Nat) (u : RideUpdates) :
    Except Err AppState :=
  match findRideOwned st rid uid with
  | none => .error .rideNotFound
  | some ride =>
    if hasBlockingBookings st rid then .error .rideUpdateHasBookings
    else
      let ride' := applyRideUpdates ride u
      if rideValid ride' then
        .ok { st with
          rides := updateFirst (fun r => r.id == rid) (fun _ => ride') st.rides }
      else .error .validationFailed

/-! ## Review controller (`reviewController.js`) -/

/-- JS `Math.round`: nearest integer, ties towards positive infinity. -/
def jsRound (q : ℚ) : ℤ := ⌊q + 1/2⌋

/-- `Math.round(avgRating * 10) / 10` — round to one decimal place. -/
def round1 (q : ℚ) : ℚ := (jsRound (q * 10) : ℚ) / 10

/-- `Review.find({reviewee, reviewType: "passenger-to-driver",
isVisible: true})` — the review set the rating aggregate is computed
over. -/
def visibleP2D (reviews : List Review) (driverId : Nat) : List Review :=
  reviews.filter (fun r =>
    r.reviewee == driverId && r.reviewType == .passengerToDriver && r.isVisible)

/-- `updateDriverRating` helper: recomputes the driver's stored rating as
the rounded mean of all currently visible passenger-to-driver reviews.
When that set is empty (`reviews.length > 0` fails) nothing is written. -/
def updateDriverRating (st : AppState) (driverId : Nat) : AppState :=
  let rs := visibleP2D st.reviews driverId
  if 0 < rs.length then
    let avg := ((rs.map (fun r => r.rating)).sum) / (rs.length : ℚ)
    let profiles' := updateFirst (fun p => p.user == driverId)
      (fun p => { p with rating := round1 avg }) st.profiles
    { st with profiles := profiles' }
  else st

/-- `Review.findOne({booking, reviewer})` — the duplicate-review check. -/
def hasReviewBy (st : AppState) (bid uid : Nat) : Bool :=
  st.reviews.any (fun r => r.booking == bid && r.reviewer == uid)

/-- `createReview` (POST /api/reviews): rating must be 1–5, the booking
must be `completed`, the caller must be the passenger or the driver of the
booking (which fixes `reviewType`/`reviewee`), and the (booking, reviewer)
pair must be fresh; on a passenger-to-driver review the driver's rating
aggregate is recomputed. -/
def createReview (st : AppState) (uid bid : Nat) (rating : ℚ) (now : Nat) :
    Except Err AppState :=
  if rating < 1 ∨ 5 < rating then .error .invalidRating
  else match findBooking st bid with
  | none => .error .bookingNotFound
  | some booking =>
    match findRide st booking.ride with
    | none => .error .serverFault
    | some ride =>
      if booking.status ≠ .completed then .error .notCompleted
      else if booking.passenger ≠ uid ∧ ride.driver ≠ uid then
        .error .notParticipant
      else
        let isPassenger := booking.passenger = uid
        let reviewType : RevType :=
          if isPassenger then .passengerToDriver else .driverToPassenger
        let reviewee := if isPassenger then ride.driver else booking.passenger
        if hasReviewBy st bid uid then .error .duplicateReview
        else
          let review : Review :=
            { id := st.nextReviewId
              booking := bid
              ride := booking.ride
              reviewer := uid
              reviewee := reviewee
              reviewType := reviewType
              rating := rating
              isVisible := true
              createdAt := now }
          let st1 := { st with reviews := st.reviews ++ [review],
                               nextReviewId := st.nextReviewId + 1 }
          if reviewType = .passengerToDriver then
            .ok (updateDriverRating st1 reviewee)
          else .ok st1

/-- `Review.findOne({_id, reviewer})`. -/
def findReviewBy (st : AppState) (revId uid : Nat) : Option Review :=
  st.reviews.find? (fun r => r.id == revId && r.reviewer == uid)

/-- The 24-hour edit window: `(Date.now() - createdAt) / 3600000 > 24`,
i.e. more than 86400000 ms have elapsed. -/
def editWindowClosed (createdAt now : Nat) : Bool :=
  86400000 < now - createdAt

/-- `updateReview` (PUT /api/reviews/:id): only the reviewer, only within
24 hours; `if (rating) review.rating = rating` is a JS truthiness test, so
a provided rating of 0 is ignored; the save re-validates the 1–5 schema
bound; a passenger-to-driver review re-triggers the rating recompute. -/
def updateReview (st : AppState) (uid revId : Nat) (rating : Option ℚ)
    (now : Nat) : Except Err AppState :=
  match findReviewBy st revId uid with
  | none => .error .reviewNotFound
  | some review =>
    if editWindowClosed review.createdAt now then .error .editWindowExpired
    else
      let r' := match rating with
        | some q => if q ≠ 0 then { review with rating := q } else review
        | none => review
      if r'.rating < 1 ∨ 5 < r'.rating then .error .validationFailed
      else
        let st1 := { st with
          reviews := updateFirst (fun r => r.id == revId) (fun _ => r') st.reviews }
        if review.reviewType = .passengerToDriver then
          .ok (updateDriverRating st1 review.reviewee)
        else .ok st1

/-- `deleteReview` (DELETE /api/reviews/:id): only the reviewer, only
within 24 hours; removes the review and, for a passenger-to-driver review,
re-triggers the rating recompute over the remaining set. -/
def deleteReview (st : AppState) (uid revId : Nat) (now : Nat) :
    Except Err AppState :=
  match findReviewBy st revId uid with
  | none => .error .reviewNotFound
  | some review =>
    if editWindowClosed review.createdAt now then .error .editWindowExpired
    else
      let st1 := { st with reviews := removeFirst (fun r => r.id == revId) st.reviews }
      if review.reviewType = .passengerToDriver then
        .ok (updateDriverRating st1 review.reviewee)
      else .ok st1

/-! ## Helper lemmas about the persistence primitives -/

theorem find?_updateFirst (q : α → Bool) (f : α → α)
    (hf : ∀ a, q a = true → q (f a) = true) :
    ∀ l : List α, (updateFirst q f l).find? q = (l.find? q).map f := by
  intro l
  induction l with
  | nil => rfl
  | cons x xs ih =>
    by_cases hx : q x = true
    · simp [updateFirst, hx, List.find?, hf x hx]
    · simp [updateFirst, hx, List.find?, ih]

deriving instance DecidableEq for Except

theorem updateFirst_of_find?_eq (q : α → Bool) (f : α → α) :
    ∀ (l : List α) (a : α), l.find? q = some a →
      updateFirst q f l = updateFirst q (fun _ => f a) l := by
  intro l
  induction l with
  | nil => intro a h; cases h
  | cons x xs ih =>
    intro a h
    by_cases hx : q x = true
    · have hfind : List.find? q (x :: xs) = some x := by simp [List.find?, hx]
      rw [hfind] at h
      injection h with h
      subst h
      simp [updateFirst, hx]
    · simp [List.find?, hx] at h
      simp [updateFirst, hx, ih a h]

theorem updateFirst_preserves (q : α → Bool) (f : α → α) (g : α → β)
    (hg : ∀ a, q a = true → g (f a) = g a) :
    ∀ l : List α, (updateFirst q f l).map g = l.map g := by
  intro l
  induction l with
  | nil => rfl
  | cons x xs ih =>
    by_cases hx : q x = true
    · simp [updateFirst, hx, hg x hx]
    · simp [updateFirst, hx, ih]

/-! ## C2: the seat-accounting scenario -/

/-- The ride of the C2 scenario: 4 seats, all free, scheduled. -/
def rideC2 : Ride where
  id := 1
  driver := 10
  departureDate := 1000
  departureTime := "08:00"
  totalSeats := 4
  availableSeats := 4
  farePerSeat := 100
  description := none
  status := .scheduled
  passengers := []

/-- Initial store of the C2 scenario. -/
def stC2 : AppState where
  rides := [rideC2]
  bookings := []
  profiles := []
  reviews := []
  nextBookingId := 100
  nextReviewId := 500

/-- **C2** — For a ride with totalSeats=4 and availableSeats=4, booking 3
seats for passenger A (user 20) leaves availableSeats=1; a subsequent
request by passenger B (user 30) for 2 seats fails with the
insufficient-capacity error reporting the 1 available seat — and, the
controller returning before `Booking.create`, neither changes the stored
state nor creates a booking (the driver's subsequent reject acts on the
unchanged one-booking store); the driver (user 10) then rejecting A's
booking restores availableSeats to 4. -/
theorem bookRide_capacity_scenario :
    ((bookRide stC2 20 1 3 "Mall Road" "Airport").map (fun st =>
        ((findRide st 1).map Ride.availableSeats, st.bookings.length)) =
      .ok (some 1, 1)) ∧
    ((bookRide stC2 20 1 3 "Mall Road" "Airport").bind (fun st =>
        bookRide st 30 1 2 "Mall Road" "Airport") =
      .error (.insufficientSeats 1)) ∧
    ((bookRide stC2 20 1 3 "Mall Road" "Airport").bind (fun st =>
        respondToBooking st 10 100 .reject 77)).map (fun st =>
          ((findRide st 1).map Ride.availableSeats,
           st.bookings.map Booking.status)) =
      .ok (some 4, [.rejected]) := by
  decide

/-! ## C9: seat accounting under interleaved requests -/

/-- Total seats held by bookings of a ride that are not cancelled/rejected —
the quantity the capacity invariant bounds by `totalSeats`. -/
def activeSeats (st : AppState) (rid : Nat) : Nat :=
  ((st.bookings.filter (fun b =>
      b.ride == rid && !(b.status == .cancelled) && !(b.status == .rejected))).map
    (fun b => b.seatsBooked)).sum

/-- A one-seat scheduled ride, fully free, for the race scenario. -/
def rideC9 : Ride where
  id := 1
  driver := 10
  departureDate := 2000
  departureTime := "09:00"
  totalSeats := 1
  availableSeats := 1
  farePerSeat := 50
  description := none
  status := .scheduled
  passengers := []

/-- Initial store of the race scenario. -/
def stC9 : AppState where
  rides := [rideC9]
  bookings := []
  profiles := []
  reviews := []
  nextBookingId := 100
  nextReviewId := 500

/-- Default pending write used only to destructure `Except` results. -/
def noSave : PendingRideSave where
  rid := 0
  newAvailable := 0
  newPassengers := []

/-- Phase one of passenger 20's request against the initial store. -/
def c9run1 : AppState × PendingRideSave :=
  (bookRideStep1 stC9 20 1 1 "Mall Road" "Airport").toOption.getD (stC9, noSave)

/-- Phase one of passenger 30's request, interleaved before passenger 20's
`ride.save()` write. -/
def c9run2 : AppState × PendingRideSave :=
  (bookRideStep1 c9run1.1 30 1 1 "Station" "Airport").toOption.getD (stC9, noSave)

/-- The store after both deferred `ride.save()` writes land. -/
def c9final : AppState :=
  bookRideStep2 (bookRideStep2 c9run2.1 c9run1.2) c9run2.2

/-- **C9** — The seat check and the seat decrement of `bookRide` are *not*
atomic with booking creation: on a one-seat ride, passenger 20's and
passenger 30's one-seat requests, interleaved so that both run their
check-and-create phase before either `ride.save()` write, both pass the
stale `availableSeats = 1` check and both bookings are created — two
non-cancelled bookings holding 2 seats on a 1-seat ride (the spec's
capacity invariant is violated, with the stored counter at 0 masking the
oversell).  The last conjunct shows the sequential order would instead have
rejected passenger 30 with the insufficient-capacity error, so the oversell
is purely a product of the interleaving the claim says is prevented. -/
theorem bookRide_oversell_under_interleaving :
    bookRideStep1 stC9 20 1 1 "Mall Road" "Airport" = .ok c9run1 ∧
    bookRideStep1 c9run1.1 30 1 1 "Station" "Airport" = .ok c9run2 ∧
    activeSeats c9final 1 = 2 ∧
    (findRide c9final 1).map Ride.totalSeats = some 1 ∧
    (findRide c9final 1).map Ride.availableSeats = some 0 ∧
    bookRide (bookRideStep2 c9run1.1 c9run1.2) 30 1 1 "Station" "Airport" =
      .error (.insufficientSeats 0) := by
  refine ⟨rfl, rfl, by decide, by decide, by decide, by decide⟩

/-! ## The booking status pipeline: general lemmas -/

/-- `allowedNextStatuses || []` — the allowed-next set the error body
reports. -/
def allowedNext (s : BStatus) : List BStatus := (statusFlow s).getD []

theorem bookingValid_applyStatusStamp (b : Booking) (t : BStatus) (now : Nat) :
    bookingValid (applyStatusStamp b t now) = bookingValid b := by
  cases t <;> rfl

/-- A target outside the request vocabulary is rejected up-front, before the
booking is even looked up. -/
theorem updateBookingStatus_invalid_target (st : AppState) (uid bid : Nat)
    (t : BStatus) (now : Nat) (hvs : t ∉ validStatuses) :
    updateBookingStatus st uid bid t now = .error (.invalidStatusTarget validStatuses) := by
  unfold updateBookingStatus
  simp [hvs]

/-- A vocabulary target that the transition table does not allow from the
current status produces the `InvalidTransition` error reporting the current
status and the allowed-next set. -/
theorem updateBookingStatus_bad_transition (st : AppState) (uid bid : Nat)
    (t : BStatus) (now : Nat) (b : Booking) (r : Ride)
    (hb : findBooking st bid = some b)
    (hr : findRide st b.ride = some r)
    (hd : r.driver = uid)
    (hvs : t ∈ validStatuses)
    (hal : t ∉ allowedNext b.status) :
    updateBookingStatus st uid bid t now =
      .error (.invalidTransition b.status (allowedNext b.status)) := by
  unfold updateBookingStatus
  cases hf : statusFlow b.status with
  | none => simp [hvs, hb, hr, hd, allowedNext, hf]
  | some al =>
    have hal' : t ∉ al := by rwa [allowedNext, hf, Option.getD_some] at hal
    simp [hvs, hb, hr, hd, hf, hal', allowedNext]

/-- Normal form of a successful status update: the booking is replaced by
its stamped version, and exactly on the `completed` target the driver's
stats are incremented. -/
theorem updateBookingStatus_ok_shape (st : AppState) (uid bid : Nat)
    (t : BStatus) (now : Nat) (b : Booking) (r : Ride) (al : List BStatus)
    (hb : findBooking st bid = some b)
    (hr : findRide st b.ride = some r)
    (hd : r.driver = uid)
    (hvs : t ∈ validStatuses)
    (hf : statusFlow b.status = some al)
    (hal : t ∈ al)
    (hv : bookingValid b = true) :
    updateBookingStatus st uid bid t now =
      .ok { st with
        profiles :=
          if t = .completed then incDriverStats st.profiles uid b.totalFare
          else st.profiles
        bookings := updateFirst (fun x => x.id == bid)
          (fun _ => applyStatusStamp b t now) st.bookings } := by
  unfold updateBookingStatus
  simp [hvs, hb, hr, hd, hf, hal, bookingValid_applyStatusStamp, hv]

/-! ## C1: the transition table of `updateBookingStatus` -/

/-- **C1 (amended)** — Given the booking and its ride are found and the
caller is the owning driver: the update succeeds exactly when the target is
in the request vocabulary (the five driver-progress statuses) *and* in the
allowed-next set of the current status, which the linear `statusFlow` chain
makes at most a singleton; a vocabulary target outside the allowed-next set
(including every target when the current status has no successor, where the
reported set is empty) fails with the `InvalidTransition` error carrying
the current status and the allowed-next set; but a target outside the five
(e.g. the backward target `confirmed`, or `pending`) is rejected by the
up-front vocabulary check with a generic invalid-status error that reports
only the valid options.  Every failure returns before any write, leaving
the booking unchanged. -/
theorem updateBookingStatus_transition_table
    (st : AppState) (uid bid : Nat) (t : BStatus) (now : Nat)
    (b : Booking) (r : Ride)
    (hb : findBooking st bid = some b)
    (hr : findRide st b.ride = some r)
    (hd : r.driver = uid)
    (hv : bookingValid b = true) :
    ((∃ st', updateBookingStatus st uid bid t now = .ok st') ↔
      (t ∈ validStatuses ∧ t ∈ allowedNext b.status)) ∧
    (t ∉ validStatuses →
      updateBookingStatus st uid bid t now =
        .error (.invalidStatusTarget validStatuses)) ∧
    (t ∈ validStatuses → t ∉ allowedNext b.status →
      updateBookingStatus st uid bid t now =
        .error (.invalidTransition b.status (allowedNext b.status))) ∧
    (∀ s : BStatus, (allowedNext s).length ≤ 1) := by
  refine ⟨⟨?_, ?_⟩, ?_, ?_, ?_⟩
  · rintro ⟨st', h⟩
    by_cases hvs : t ∈ validStatuses
    · by_cases hal : t ∈ allowedNext b.status
      · exact ⟨hvs, hal⟩
      · rw [updateBookingStatus_bad_transition st uid bid t now b r hb hr hd hvs hal] at h
        cases h
    · rw [updateBookingStatus_invalid_target st uid bid t now hvs] at h
      cases h
  · rintro ⟨hvs, hal⟩
    cases hf : statusFlow b.status with
    | none => simp [allowedNext, hf] at hal
    | some al =>
      have hal' : t ∈ al := by rwa [allowedNext, hf, Option.getD_some] at hal
      exact ⟨_, updateBookingStatus_ok_shape st uid bid t now b r al hb hr hd hvs hf hal' hv⟩
  · intro hvs
    exact updateBookingStatus_invalid_target st uid bid t now hvs
  · intro hvs hal
    exact updateBookingStatus_bad_transition st uid bid t now b r hb hr hd hvs hal
  · intro s
    cases s <;> simp [allowedNext, statusFlow]

/-- A booking sitting at `coming-for-pickup` with no stamps yet. -/
def bkC1 : Booking where
  id := 5
  ride := 1
  passenger := 20
  seatsBooked := 2
  farePerSeat := 100
  totalFare := 200
  status := .comingForPickup
  paymentStatus := .pending
  cancelledBy := none
  confirmedAt := none
  comingForPickupAt := none
  pickedUpAt := none
  droppedOffAt := none
  completedAt := none
  cancelledAt := none

/-- The ride of `bkC1`, owned by driver 10. -/
def rdC1 : Ride where
  id := 1
  driver := 10
  departureDate := 5000
  departureTime := "10:00"
  totalSeats := 4
  availableSeats := 2
  farePerSeat := 100
  description := none
  status := .inProgress
  passengers := [5]

/-- Store holding `bkC1` on `rdC1`. -/
def stC1 : AppState where
  rides := [rdC1]
  bookings := [bkC1]
  profiles := []
  reviews := []
  nextBookingId := 6
  nextReviewId := 1

/-- **C1 (counterexample)** — The owning driver requests the backward
target `confirmed` for a booking currently at `coming-for-pickup`.  The
claim says every backward target fails with an `InvalidTransition` error
reporting the current status and the allowed-next set; instead the request
dies at the up-front vocabulary check with the generic invalid-status
error, which is not an `InvalidTransition` error of any shape and carries
no current status. -/
theorem updateBookingStatus_backward_target_generic_error :
    bkC1.status = .comingForPickup ∧
    updateBookingStatus stC1 10 5 .confirmed 50 =
      .error (.invalidStatusTarget validStatuses) ∧
    ∀ (c : BStatus) (a : List BStatus),
      (Err.invalidStatusTarget validStatuses) ≠ .invalidTransition c a := by
  refine ⟨rfl, by decide, ?_⟩
  intro c a h
  cases h

/-- Witness for C1: from `coming-for-pickup`, the chain target `picked-up`
is accepted. -/
theorem updateBookingStatus_transition_table_witness :
    ∃ st', updateBookingStatus stC1 10 5 .pickedUp 60 = .ok st' := by
  have h := updateBookingStatus_transition_table stC1 10 5 .pickedUp 60 bkC1 rdC1
    rfl rfl rfl (by decide)
  exact h.1.mpr (by decide)

/-! ## Lookup after write -/

theorem findBooking_after_replace (l : List Booking) (bid : Nat) (b b' : Booking)
    (hb : l.find? (fun x => x.id == bid) = some b) (hid : b'.id = b.id) :
    (updateFirst (fun x => x.id == bid) (fun _ => b') l).find?
      (fun x => x.id == bid) = some b' := by
  have hq := List.find?_some hb
  have hq' : (b'.id == bid) = true := by rw [hid]; exact hq
  rw [find?_updateFirst (fun x => x.id == bid) (fun _ => b') (fun a _ => hq') l, hb]
  rfl

theorem findProfile_after_update (l : List DriverProfile) (uid : Nat) (p : DriverProfile)
    (f : DriverProfile → DriverProfile) (hf : ∀ q, (f q).user = q.user)
    (hp : l.find? (fun x => x.user == uid) = some p) :
    (updateFirst (fun x => x.user == uid) f l).find?
      (fun x => x.user == uid) = some (f p) := by
  have hu : ∀ a, ((a : DriverProfile).user == uid) = true → ((f a).user == uid) = true := by
    intro a ha
    rw [hf a]
    exact ha
  rw [find?_updateFirst (fun x => x.user == uid) f hu l, hp]
  rfl

theorem map_paymentStatus_replace (l : List Booking) (bid : Nat) (b : Booking)
    (t : BStatus) (now : Nat) (ht : t ≠ .completed)
    (hb : l.find? (fun x => x.id == bid) = some b) :
    (updateFirst (fun x => x.id == bid) (fun _ => applyStatusStamp b t now) l).map
        Booking.paymentStatus = l.map Booking.paymentStatus := by
  have heq := updateFirst_of_find?_eq (fun x : Booking => x.id == bid)
    (fun x => applyStatusStamp x t now) l b hb
  rw [← heq]
  exact updateFirst_preserves _ _ _
    (fun a _ => by cases t <;> first | rfl | exact absurd rfl ht) l

/-! ## C3: completion effects happen exactly once -/

/-- **C3** — Reaching `completed` is the sole trigger of the payment and
earnings side effects: (1) every successful transition to a target other
than `completed` leaves all driver profiles and every booking's
`paymentStatus` untouched; (2) from `dropped-off`, the `completed`
transition marks the booking paid and increments the owning driver's
`totalRides` by exactly 1 and `totalEarnings` by exactly the booking's
snapshotted `totalFare`; and a second `completed` request against the same
booking fails with `InvalidTransition` (reporting `completed` and the empty
allowed-next set) before any write, so the increments happen exactly once. -/
theorem updateBookingStatus_completion_effects :
    (∀ (st : AppState) (uid bid : Nat) (t : BStatus) (now : Nat) (st' : AppState),
      t ≠ .completed →
      updateBookingStatus st uid bid t now = .ok st' →
      st'.profiles = st.profiles ∧
      st'.bookings.map Booking.paymentStatus = st.bookings.map Booking.paymentStatus) ∧
    (∀ (st : AppState) (uid bid now : Nat) (b : Booking) (r : Ride) (p : DriverProfile),
      findBooking st bid = some b →
      findRide st b.ride = some r →
      r.driver = uid →
      findProfile st uid = some p →
      bookingValid b = true →
      b.status = .droppedOff →
      ∃ st', updateBookingStatus st uid bid .completed now = .ok st' ∧
        findBooking st' bid = some { b with status := .completed,
                                            completedAt := some now,
                                            paymentStatus := .paid } ∧
        findProfile st' uid = some { p with totalRides := p.totalRides + 1,
                                            totalEarnings := p.totalEarnings + b.totalFare } ∧
        ∀ now2, updateBookingStatus st' uid bid .completed now2 =
          .error (.invalidTransition .completed [])) := by
  constructor
  · intro st uid bid t now st' ht h
    by_cases hvs : t ∈ validStatuses
    · cases hbk : findBooking st bid with
      | none => unfold updateBookingStatus at h; simp [hvs, hbk] at h
      | some b =>
        cases hrd : findRide st b.ride with
        | none => unfold updateBookingStatus at h; simp [hvs, hbk, hrd] at h
        | some r =>
          by_cases hd : r.driver = uid
          · cases hf : statusFlow b.status with
            | none =>
              rw [updateBookingStatus_bad_transition st uid bid t now b r hbk hrd hd hvs
                (by simp [allowedNext, hf])] at h
              cases h
            | some al =>
              by_cases hal : t ∈ al
              · by_cases hv : bookingValid b = true
                · rw [updateBookingStatus_ok_shape st uid bid t now b r al
                    hbk hrd hd hvs hf hal hv] at h
                  injection h with h
                  subst h
                  refine ⟨by rw [if_neg ht], ?_⟩
                  exact map_paymentStatus_replace st.bookings bid b t now ht hbk
                · unfold updateBookingStatus at h
                  simp [hvs, hbk, hrd, hd, hf, hal,
                    bookingValid_applyStatusStamp, hv] at h
              · rw [updateBookingStatus_bad_transition st uid bid t now b r hbk hrd hd hvs
                  (by simp [allowedNext, hf, hal])] at h
                cases h
          · unfold updateBookingStatus at h
            simp [hvs, hbk, hrd, hd] at h
    · rw [updateBookingStatus_invalid_target st uid bid t now hvs] at h
      cases h
  · intro st uid bid now b r p hb hr hd hp hv hst
    have hok := updateBookingStatus_ok_shape st uid bid .completed now b r [.completed]
      hb hr hd (by decide) (by rw [hst]; rfl) (by decide) hv
    have hfb : findBooking
        { st with
          profiles := if BStatus.completed = BStatus.completed
            then incDriverStats st.profiles uid b.totalFare else st.profiles
          bookings := updateFirst (fun x => x.id == bid)
            (fun _ => applyStatusStamp b .completed now) st.bookings } bid =
        some (applyStatusStamp b .completed now) :=
      findBooking_after_replace st.bookings bid b _ hb rfl
    refine ⟨_, hok, hfb, ?_, ?_⟩
    · show (incDriverStats st.profiles uid b.totalFare).find? (fun x => x.user == uid) = _
      exact findProfile_after_update st.profiles uid p _ (fun q => rfl) hp
    · intro now2
      exact updateBookingStatus_bad_transition _ uid bid .completed now2
        (applyStatusStamp b .completed now) r hfb hr hd (by decide)
        (by simp [applyStatusStamp, allowedNext, statusFlow])

/-- A booking at `dropped-off`, fare snapshotted at 300, for driver 11. -/
def bkC3 : Booking where
  id := 8
  ride := 2
  passenger := 21
  seatsBooked := 2
  farePerSeat := 150
  totalFare := 300
  status := .droppedOff
  paymentStatus := .pending
  cancelledBy := none
  confirmedAt := some 90
  comingForPickupAt := some 95
  pickedUpAt := some 99
  droppedOffAt := some 120
  completedAt := none
  cancelledAt := none

/-- The ride of `bkC3`, owned by driver 11. -/
def rdC3 : Ride where
  id := 2
  driver := 11
  departureDate := 5000
  departureTime := "11:00"
  totalSeats := 3
  availableSeats := 1
  farePerSeat := 150
  description := none
  status := .inProgress
  passengers := [8]

/-- Driver 11's profile before completion: 7 rides, 1000 earned. -/
def prC3 : DriverProfile where
  user := 11
  rating := 4
  totalRides := 7
  totalEarnings := 1000

/-- Store holding `bkC3`, `rdC3` and `prC3`. -/
def stC3 : AppState where
  rides := [rdC3]
  bookings := [bkC3]
  profiles := [prC3]
  reviews := []
  nextBookingId := 9
  nextReviewId := 1

/-- Witness for C3: completing `bkC3` marks it paid, moves driver 11 to 8
rides and 1300 earned, and a retry fails. -/
theorem updateBookingStatus_completion_effects_witness :
    ∃ st', updateBookingStatus stC3 11 8 .completed 123 = .ok st' ∧
      (findBooking st' 8).map Booking.paymentStatus = some .paid ∧
      (findProfile st' 11).map DriverProfile.totalRides = some 8 ∧
      (findProfile st' 11).map DriverProfile.totalEarnings = some 1300 ∧
      updateBookingStatus st' 11 8 .completed 200 =
        .error (.invalidTransition .completed []) := by
  obtain ⟨st', hok, hbk, hpr, hsec⟩ :=
    updateBookingStatus_completion_effects.2 stC3 11 8 123 bkC3 rdC3 prC3
      rfl rfl rfl rfl (by decide) rfl
  refine ⟨st', hok, ?_, ?_, ?_, hsec 200⟩
  · rw [hbk]
    rfl
  · rw [hpr]
    rfl
  · rw [hpr]
    show some ((1000 : ℚ) + 300) = some 1300
    norm_num

/-! ## C6: which transitions stamp a timestamp -/

theorem updateBookingStatus_stamps_found (st : AppState) (uid bid : Nat)
    (t : BStatus) (now : Nat) (b : Booking) (r : Ride) (al : List BStatus)
    (hb : findBooking st bid = some b)
    (hr : findRide st b.ride = some r)
    (hd : r.driver = uid)
    (hvs : t ∈ validStatuses)
    (hf : statusFlow b.status = some al)
    (hal : t ∈ al)
    (hv : bookingValid b = true) :
    ∃ st', updateBookingStatus st uid bid t now = .ok st' ∧
      findBooking st' bid = some (applyStatusStamp b t now) :=
  ⟨_, updateBookingStatus_ok_shape st uid bid t now b r al hb hr hd hvs hf hal hv,
    findBooking_after_replace st.bookings bid b _ hb (by cases t <;> rfl)⟩

/-- **C6 (amended)** — Of the five successful progress transitions, four
stamp the timestamp belonging to the new status (`coming-for-pickup` →
`comingForPickupAt`, `picked-up` → `pickedUpAt`, `dropped-off` →
`droppedOffAt`, `completed` → `completedAt`); the `in-transit` transition
stamps nothing — the stored booking changes only in its `status` field,
the schema having no in-transit timestamp field and the controller's
switch no in-transit case. -/
theorem updateBookingStatus_timestamps (st : AppState) (uid bid now : Nat)
    (b : Booking) (r : Ride)
    (hb : findBooking st bid = some b)
    (hr : findRide st b.ride = some r)
    (hd : r.driver = uid)
    (hv : bookingValid b = true) :
    (b.status = .confirmed → ∃ st',
      updateBookingStatus st uid bid .comingForPickup now = .ok st' ∧
      findBooking st' bid = some { b with status := .comingForPickup,
                                          comingForPickupAt := some now }) ∧
    (b.status = .comingForPickup → ∃ st',
      updateBookingStatus st uid bid .pickedUp now = .ok st' ∧
      findBooking st' bid = some { b with status := .pickedUp,
                                          pickedUpAt := some now }) ∧
    (b.status = .pickedUp → ∃ st',
      updateBookingStatus st uid bid .inTransit now = .ok st' ∧
      findBooking st' bid = some { b with status := .inTransit }) ∧
    (b.status = .inTransit → ∃ st',
      updateBookingStatus st uid bid .droppedOff now = .ok st' ∧
      findBooking st' bid = some { b with status := .droppedOff,
                                          droppedOffAt := some now }) ∧
    (b.status = .droppedOff → ∃ st',
      updateBookingStatus st uid bid .completed now = .ok st' ∧
      findBooking st' bid = some { b with status := .completed,
                                          completedAt := some now,
                                          paymentStatus := .paid }) := by
  refine ⟨?_, ?_, ?_, ?_, ?_⟩ <;> intro hst
  · exact updateBookingStatus_stamps_found st uid bid .comingForPickup now b r _
      hb hr hd (by decide) (by rw [hst]; rfl) (by decide) hv
  · exact updateBookingStatus_stamps_found st uid bid .pickedUp now b r _
      hb hr hd (by decide) (by rw [hst]; rfl) (by decide) hv
  · exact updateBookingStatus_stamps_found st uid bid .inTransit now b r _
      hb hr hd (by decide) (by rw [hst]; rfl) (by decide) hv
  · exact updateBookingStatus_stamps_found st uid bid .droppedOff now b r _
      hb hr hd (by decide) (by rw [hst]; rfl) (by decide) hv
  · exact updateBookingStatus_stamps_found st uid bid .completed now b r _
      hb hr hd (by decide) (by rw [hst]; rfl) (by decide) hv

/-- A booking at `picked-up` whose timestamp fields are all still unset. -/
def bkC6 : Booking where
  id := 9
  ride := 3
  passenger := 22
  seatsBooked := 1
  farePerSeat := 80
  totalFare := 80
  status := .pickedUp
  paymentStatus := .pending
  cancelledBy := none
  confirmedAt := none
  comingForPickupAt := none
  pickedUpAt := none
  droppedOffAt := none
  completedAt := none
  cancelledAt := none

/-- The ride of `bkC6`, owned by driver 12. -/
def rdC6 : Ride where
  id := 3
  driver := 12
  departureDate := 6000
  departureTime := "12:00"
  totalSeats := 2
  availableSeats := 1
  farePerSeat := 80
  description := none
  status := .inProgress
  passengers := [9]

/-- Store holding `bkC6` on `rdC6`. -/
def stC6 : AppState where
  rides := [rdC6]
  bookings := [bkC6]
  profiles := []
  reviews := []
  nextBookingId := 10
  nextReviewId := 1

/-- **C6 (counterexample)** — The `picked-up → in-transit` transition at
time 555 succeeds, yet the stored booking afterwards carries no timestamp
at all: every timestamp field is still `none`, so the in-transit
transition — contrary to the claim that each of the five transitions
records its own timestamp — records nothing. -/
theorem updateBookingStatus_inTransit_no_timestamp :
    (updateBookingStatus stC6 12 9 .inTransit 555).map (fun st =>
      (findBooking st 9).map (fun b =>
        (b.status, b.confirmedAt, b.comingForPickupAt, b.pickedUpAt,
         b.droppedOffAt, b.completedAt, b.cancelledAt))) =
    .ok (some (.inTransit, none, none, none, none, none, none)) := by
  rfl

/-- A booking at `confirmed` on `rdC6`, not yet stamped. -/
def bkC6w : Booking where
  id := 14
  ride := 3
  passenger := 23
  seatsBooked := 1
  farePerSeat := 80
  totalFare := 80
  status := .confirmed
  paymentStatus := .pending
  cancelledBy := none
  confirmedAt := some 600
  comingForPickupAt := none
  pickedUpAt := none
  droppedOffAt := none
  completedAt := none
  cancelledAt := none

/-- Store holding `bkC6w` on `rdC6`. -/
def stC6w : AppState where
  rides := [rdC6]
  bookings := [bkC6w]
  profiles := []
  reviews := []
  nextBookingId := 15
  nextReviewId := 1

/-- Witness for C6: the `confirmed → coming-for-pickup` transition at time
700 stamps `comingForPickupAt := 700`. -/
theorem updateBookingStatus_timestamps_witness :
    ∃ st', updateBookingStatus stC6w 12 14 .comingForPickup 700 = .ok st' ∧
      (findBooking st' 14).map Booking.comingForPickupAt = some (some 700) := by
  obtain ⟨st', hok, hbk⟩ :=
    (updateBookingStatus_timestamps stC6w 12 14 700 bkC6w rdC6
      rfl rfl rfl (by decide)).1 rfl
  refine ⟨st', hok, ?_⟩
  rw [hbk]
  rfl

/-! ## C4: ride cancellation cascade -/

theorem updateRideStatus_cancelled_shape
    (st : AppState) (uid rid now : Nat) (r : Ride)
    (hr : findRideOwned st rid uid = some r)
    (hv : rideValid { r with status := RStatus.cancelled } = true) :
    updateRideStatus st uid rid .cancelled now = .ok (AppState.mk
      (updateFirst (fun x => x.id == rid)
        (fun _ => { r with status := RStatus.cancelled }) st.rides)
      (st.bookings.map (cascadeCancel rid now))
      st.profiles st.reviews st.nextBookingId st.nextReviewId) := by
  unfold updateRideStatus
  simp [hr, hv]

theorem cascadeCancel_hit (rid now : Nat) (b : Booking) (hride : b.ride = rid)
    (hstat : b.status = .pending ∨ b.status = .confirmed) :
    cascadeCancel rid now b =
      { b with status := BStatus.cancelled,
               cancelledBy := some Canceller.driver,
               cancelledAt := some now } := by
  rcases hstat with h | h <;> simp [cascadeCancel, hride, h]

theorem cascadeCancel_miss (rid now : Nat) (b : Booking)
    (hp : b.status ≠ .pending) (hc : b.status ≠ .confirmed) :
    cascadeCancel rid now b = b := by
  simp [cascadeCancel, hp, hc]

/-- **C4** — Setting a ride to `cancelled` (by its owning driver) succeeds
in one operation and: cancels every booking of that ride that is `pending`
or `confirmed`, stamping `cancelledBy := driver` (the cascade is
system-initiated, not the passenger-cancellation path) and `cancelledAt`;
leaves every booking in any other status untouched (and deletes none);
and changes no ride's `availableSeats` — the cancelled ride keeps its
seat counter, no per-booking seat re-release happens. -/
theorem updateRideStatus_cancel_cascade
    (st : AppState) (uid rid now : Nat) (r : Ride)
    (hr : findRideOwned st rid uid = some r)
    (hr2 : findRide st rid = some r)
    (hv : rideValid { r with status := RStatus.cancelled } = true) :
    ∃ st', updateRideStatus st uid rid .cancelled now = .ok st' ∧
      findRide st' rid = some { r with status := RStatus.cancelled } ∧
      (∀ b ∈ st.bookings, b.ride = rid →
        (b.status = .pending ∨ b.status = .confirmed) →
        { b with status := BStatus.cancelled,
                 cancelledBy := some Canceller.driver,
                 cancelledAt := some now } ∈ st'.bookings) ∧
      (∀ b ∈ st.bookings, b.status ≠ .pending → b.status ≠ .confirmed →
        b ∈ st'.bookings) ∧
      st'.bookings.length = st.bookings.length ∧
      st'.rides.map Ride.availableSeats = st.rides.map Ride.availableSeats := by
  unfold findRide at hr2
  have hq := List.find?_some hr2
  refine ⟨_, updateRideStatus_cancelled_shape st uid rid now r hr hv, ?_, ?_, ?_, ?_, ?_⟩
  · show (updateFirst (fun x => x.id == rid)
      (fun _ => { r with status := RStatus.cancelled }) st.rides).find?
      (fun x => x.id == rid) = _
    rw [find?_updateFirst (fun x : Ride => x.id == rid)
      (fun _ => { r with status := RStatus.cancelled }) (fun a _ => hq) st.rides, hr2]
    rfl
  · intro b hb hride hstat
    rw [← cascadeCancel_hit rid now b hride hstat]
    exact List.mem_map_of_mem _ hb
  · intro b hb hp hc
    have hmem := List.mem_map_of_mem (cascadeCancel rid now) hb
    rwa [cascadeCancel_miss rid now b hp hc] at hmem
  · exact List.length_map _ _
  · show (updateFirst (fun x => x.id == rid)
      (fun _ => { r with status := RStatus.cancelled }) st.rides).map Ride.availableSeats
      = st.rides.map Ride.availableSeats
    have heq := updateFirst_of_find?_eq (fun x : Ride => x.id == rid)
      (fun x => { x with status := RStatus.cancelled }) st.rides r hr2
    rw [← heq]
    exact updateFirst_preserves (fun x : Ride => x.id == rid)
      (fun x => { x with status := RStatus.cancelled }) Ride.availableSeats
      (fun a _ => rfl) st.rides

/-- A scheduled ride of driver 13 with two confirmed bookings holding all
three seats between them. -/
def rdC4 : Ride where
  id := 4
  driver := 13
  departureDate := 7000
  departureTime := "13:00"
  totalSeats := 3
  availableSeats := 0
  farePerSeat := 60
  description := none
  status := .scheduled
  passengers := [30, 31]

/-- First confirmed booking on `rdC4`. -/
def bkC4a : Booking where
  id := 30
  ride := 4
  passenger := 24
  seatsBooked := 2
  farePerSeat := 60
  totalFare := 120
  status := .confirmed
  paymentStatus := .pending
  cancelledBy := none
  confirmedAt := some 710
  comingForPickupAt := none
  pickedUpAt := none
  droppedOffAt := none
  completedAt := none
  cancelledAt := none

/-- Second confirmed booking on `rdC4`. -/
def bkC4b : Booking where
  id := 31
  ride := 4
  passenger := 25
  seatsBooked := 1
  farePerSeat := 60
  totalFare := 60
  status := .confirmed
  paymentStatus := .pending
  cancelledBy := none
  confirmedAt := some 712
  comingForPickupAt := none
  pickedUpAt := none
  droppedOffAt := none
  completedAt := none
  cancelledAt := none

/-- Store holding `rdC4` with its two confirmed bookings. -/
def stC4 : AppState where
  rides := [rdC4]
  bookings := [bkC4a, bkC4b]
  profiles := []
  reviews := []
  nextBookingId := 32
  nextReviewId := 1

/-- Witness for C4: cancelling `rdC4` transitions both confirmed bookings
to driver-cancelled in the one call, and the ride's seat counter is
untouched. -/
theorem updateRideStatus_cancel_cascade_witness :
    ∃ st', updateRideStatus stC4 13 4 .cancelled 800 = .ok st' ∧
      { bkC4a with status := BStatus.cancelled,
                   cancelledBy := some Canceller.driver,
                   cancelledAt := some 800 } ∈ st'.bookings ∧
      { bkC4b with status := BStatus.cancelled,
                   cancelledBy := some Canceller.driver,
                   cancelledAt := some 800 } ∈ st'.bookings ∧
      (findRide st' 4).map Ride.availableSeats = some 0 := by
  obtain ⟨st', hok, hfr, hhit, hmiss, hlen, hav⟩ :=
    updateRideStatus_cancel_cascade stC4 13 4 800 rdC4 rfl rfl (by decide)
  refine ⟨st', hok, ?_, ?_, ?_⟩
  · exact hhit bkC4a (by simp [stC4]) rfl (Or.inr rfl)
  · exact hhit bkC4b (by simp [stC4]) rfl (Or.inr rfl)
  · rw [hfr]
    rfl

/-! ## C7 and C8: `updateRide` guard and seat reset -/

theorem updateRide_ok_shape (st : AppState) (uid rid : Nat) (u : RideUpdates)
    (r : Ride) (hr : findRideOwned st rid uid = some r)
    (hbl : hasBlockingBookings st rid = false)
    (hv : rideValid (applyRideUpdates r u) = true) :
    updateRide st uid rid u = .ok (AppState.mk
      (updateFirst (fun x => x.id == rid) (fun _ => applyRideUpdates r u) st.rides)
      st.bookings st.profiles st.reviews st.nextBookingId st.nextReviewId) := by
  unfold updateRide
  simp [hr, hbl, hv]

theorem updateRide_blocked (st : AppState) (uid rid : Nat) (u : RideUpdates)
    (r : Ride) (hr : findRideOwned st rid uid = some r)
    (hbl : hasBlockingBookings st rid = true) :
    updateRide st uid rid u = .error .rideUpdateHasBookings := by
  unfold updateRide
  simp [hr, hbl]

theorem applyRideUpdates_id (r : Ride) (u : RideUpdates) :
    (applyRideUpdates r u).id = r.id := by
  unfold applyRideUpdates
  split <;> rfl

theorem applyRideUpdates_totalSeats (r : Ride) (u : RideUpdates) (n : Nat)
    (hts : u.totalSeats = some n) : (applyRideUpdates r u).totalSeats = n := by
  unfold applyRideUpdates
  split <;> simp [hts]

theorem applyRideUpdates_availableSeats (r : Ride) (u : RideUpdates) (n : Nat)
    (hts : u.totalSeats = some n) (hn : n ≠ 0) :
    (applyRideUpdates r u).availableSeats = (n : Int) := by
  unfold applyRideUpdates
  simp [hts, hn]

/-- **C7 (amended)** — Given the ride is found for its owning driver and
the updated document passes schema validation: `updateRide` succeeds
exactly when the ride has no booking whose status is `confirmed` or
`completed` — those two statuses only; a booking in an intermediate
progress status (`coming-for-pickup`, `picked-up`, `in-transit`,
`dropped-off`) does not block the update.  When a blocking booking exists
the call fails with the has-bookings error before any write, leaving the
ride unchanged. -/
theorem updateRide_blocking
    (st : AppState) (uid rid : Nat) (u : RideUpdates) (r : Ride)
    (hr : findRideOwned st rid uid = some r)
    (hv : rideValid (applyRideUpdates r u) = true) :
    ((∃ st', updateRide st uid rid u = .ok st') ↔
      hasBlockingBookings st rid = false) ∧
    (hasBlockingBookings st rid = true →
      updateRide st uid rid u = .error .rideUpdateHasBookings) ∧
    (hasBlockingBookings st rid = true ↔
      ∃ b ∈ st.bookings, b.ride = rid ∧
        (b.status = .confirmed ∨ b.status = .completed)) := by
  refine ⟨⟨?_, ?_⟩, ?_, ?_⟩
  · rintro ⟨st', h⟩
    cases hbl : hasBlockingBookings st rid with
    | false => rfl
    | true =>
      rw [updateRide_blocked st uid rid u r hr hbl] at h
      cases h
  · intro hbl
    exact ⟨_, updateRide_ok_shape st uid rid u r hr hbl hv⟩
  · intro hbl
    exact updateRide_blocked st uid rid u r hr hbl
  · simp [hasBlockingBookings, List.any_eq_true, Bool.and_eq_true, Bool.or_eq_true]

/-- **C8** — When `updateRide` is invoked with a new (schema-valid, hence
nonzero) `totalSeats` value `n` and no `confirmed`/`completed` booking
blocks it, the saved ride's `availableSeats` is exactly `n` — the
hypotheses place no constraint on pending bookings or their seats, so
seats held by pending bookings are not subtracted from the reset value —
and no booking document is touched. -/
theorem updateRide_totalSeats_resets_availableSeats
    (st : AppState) (uid rid : Nat) (u : RideUpdates) (n : Nat) (r : Ride)
    (hr : findRideOwned st rid uid = some r)
    (hr2 : findRide st rid = some r)
    (hbl : hasBlockingBookings st rid = false)
    (hts : u.totalSeats = some n)
    (hv : rideValid (applyRideUpdates r u) = true) :
    ∃ st', updateRide st uid rid u = .ok st' ∧
      findRide st' rid = some (applyRideUpdates r u) ∧
      (applyRideUpdates r u).availableSeats = (n : Int) ∧
      (applyRideUpdates r u).totalSeats = n ∧
      st'.bookings = st.bookings := by
  unfold findRide at hr2
  have hq := List.find?_some hr2
  have hts' := applyRideUpdates_totalSeats r u n hts
  have hn : n ≠ 0 := by
    simp [rideValid, Bool.and_eq_true, hts'] at hv
    omega
  have hq' : ((applyRideUpdates r u).id == rid) = true := by
    rw [applyRideUpdates_id]
    exact hq
  refine ⟨_, updateRide_ok_shape st uid rid u r hr hbl hv, ?_,
    applyRideUpdates_availableSeats r u n hts hn, hts', rfl⟩
  show (updateFirst (fun x => x.id == rid)
    (fun _ => applyRideUpdates r u) st.rides).find? (fun x => x.id == rid) = _
  rw [find?_updateFirst (fun x : Ride => x.id == rid)
    (fun _ => applyRideUpdates r u) (fun a _ => hq') st.rides, hr2]
  rfl

/-- A scheduled ride of driver 14 with one seat left. -/
def rdC7 : Ride where
  id := 5
  driver := 14
  departureDate := 8000
  departureTime := "14:00"
  totalSeats := 4
  availableSeats := 1
  farePerSeat := 70
  description := none
  status := .scheduled
  passengers := [40]

/-- A booking on `rdC7` already in transit — a confirmed-or-later state. -/
def bkC7 : Booking where
  id := 40
  ride := 5
  passenger := 26
  seatsBooked := 3
  farePerSeat := 70
  totalFare := 210
  status := .inTransit
  paymentStatus := .pending
  cancelledBy := none
  confirmedAt := some 820
  comingForPickupAt := some 830
  pickedUpAt := some 840
  droppedOffAt := none
  completedAt := none
  cancelledAt := none

/-- Store holding `rdC7` with its in-transit booking. -/
def stC7 : AppState where
  rides := [rdC7]
  bookings := [bkC7]
  profiles := []
  reviews := []
  nextBookingId := 41
  nextReviewId := 1

/-- An update payload moving only the departure date. -/
def uC7 : RideUpdates where
  departureDate := some 999
  departureTime := none
  totalSeats := none
  farePerSeat := none
  description := none

/-- **C7 (counterexample)** — `rdC7` carries a booking in `in-transit`, a
confirmed-or-later state, yet `updateRide` succeeds and changes the ride's
departure date; the claim says any confirmed-or-later booking must make
the update fail with the ride unchanged.  (The guard only queries
`confirmed` and `completed`.) -/
theorem updateRide_ignores_inTransit_bookings :
    stC7.bookings.map (fun b => (b.ride, b.status)) = [(5, .inTransit)] ∧
    (updateRide stC7 14 5 uC7).map (fun s =>
      (findRide s 5).map Ride.departureDate) = .ok (some 999) := by
  refine ⟨rfl, ?_⟩
  rfl

/-- A confirmed booking on `rdC7` for the witness store. -/
def bkC7w : Booking where
  id := 42
  ride := 5
  passenger := 27
  seatsBooked := 1
  farePerSeat := 70
  totalFare := 70
  status := .confirmed
  paymentStatus := .pending
  cancelledBy := none
  confirmedAt := some 850
  comingForPickupAt := none
  pickedUpAt := none
  droppedOffAt := none
  completedAt := none
  cancelledAt := none

/-- Store holding `rdC7` with a confirmed booking. -/
def stC7w : AppState where
  rides := [rdC7]
  bookings := [bkC7w]
  profiles := []
  reviews := []
  nextBookingId := 43
  nextReviewId := 1

/-- Witness for C7: with a `confirmed` booking present the update is
refused with the has-bookings error. -/
theorem updateRide_blocking_witness :
    updateRide stC7w 14 5 uC7 = .error .rideUpdateHasBookings := by
  have h := updateRide_blocking stC7w 14 5 uC7 rdC7 rfl (by decide)
  exact h.2.1 (by decide)

/-- A scheduled ride of driver 15: 4 seats, 3 of them held by a pending
booking, 1 available. -/
def rdC8 : Ride where
  id := 6
  driver := 15
  departureDate := 9000
  departureTime := "15:00"
  totalSeats := 4
  availableSeats := 1
  farePerSeat := 90
  description := none
  status := .scheduled
  passengers := [50]

/-- The pending booking holding 3 seats on `rdC8`. -/
def bkC8 : Booking where
  id := 50
  ride := 6
  passenger := 28
  seatsBooked := 3
  farePerSeat := 90
  totalFare := 270
  status := .pending
  paymentStatus := .pending
  cancelledBy := none
  confirmedAt := none
  comingForPickupAt := none
  pickedUpAt := none
  droppedOffAt := none
  completedAt := none
  cancelledAt := none

/-- Store holding `rdC8` with its pending booking. -/
def stC8 : AppState where
  rides := [rdC8]
  bookings := [bkC8]
  profiles := []
  reviews := []
  nextBookingId := 51
  nextReviewId := 1

/-- An update payload raising `totalSeats` to 5. -/
def uC8 : RideUpdates where
  departureDate := none
  departureTime := none
  totalSeats := some 5
  farePerSeat := none
  description := none

/-- Witness for C8: although the pending booking still holds 3 seats,
setting `totalSeats := 5` resets `availableSeats` to exactly 5 — no
subtraction of held seats. -/
theorem updateRide_totalSeats_resets_availableSeats_witness :
    stC8.bookings.map (fun b => (b.ride, b.status, b.seatsBooked)) =
      [(6, .pending, 3)] ∧
    ∃ st', updateRide stC8 15 6 uC8 = .ok st' ∧
      (findRide st' 6).map Ride.availableSeats = some 5 := by
  refine ⟨rfl, ?_⟩
  obtain ⟨st', hok, hfr, hav, hts, hbk⟩ :=
    updateRide_totalSeats_resets_availableSeats stC8 15 6 uC8 5 rdC8
      rfl rfl rfl rfl (by decide)
  refine ⟨st', hok, ?_⟩
  rw [hfr]
  simp [hav]

/-! ## C5 and C10: the rating aggregate -/

/-- The arithmetic mean the aggregator computes: `rating` summed over the
visible passenger-to-driver reviews of the driver, divided by their
count. -/
def ratingMean (reviews : List Review) (d : Nat) : ℚ :=
  ((visibleP2D reviews d).map (fun r => r.rating)).sum /
    ((visibleP2D reviews d).length : ℚ)

/-- The stored rating cache is correct for driver `d`: whenever the
driver's visible passenger-to-driver review set is non-empty, the stored
profile rating equals the mean over that full current set, rounded to one
decimal place. -/
def ratingCorrect (st : AppState) (d : Nat) : Prop :=
  visibleP2D st.reviews d ≠ [] →
  ∀ p, findProfile st d = some p → p.rating = round1 (ratingMean st.reviews d)

theorem updateDriverRating_reviews (st : AppState) (d : Nat) :
    (updateDriverRating st d).reviews = st.reviews := by
  unfold updateDriverRating
  by_cases h : 0 < (visibleP2D st.reviews d).length <;> simp [h]

theorem updateDriverRating_empty (st : AppState) (d : Nat)
    (h : visibleP2D st.reviews d = []) : updateDriverRating st d = st := by
  unfold updateDriverRating
  simp [h]

theorem ratingCorrect_updateDriverRating (st : AppState) (d : Nat) :
    ratingCorrect (updateDriverRating st d) d := by
  intro hne p hp
  rw [updateDriverRating_reviews] at hne ⊢
  by_cases h : 0 < (visibleP2D st.reviews d).length
  · unfold updateDriverRating at hp
    simp only [if_pos h] at hp
    have hfind : (updateFirst (fun x => x.user == d)
        (fun q => { q with rating := round1 (((visibleP2D st.reviews d).map
          (fun r => r.rating)).sum / ((visibleP2D st.reviews d).length : ℚ)) })
        st.profiles).find? (fun x => x.user == d) = some p := hp
    rw [find?_updateFirst (fun x : DriverProfile => x.user == d)
      (fun q => { q with rating := round1 (((visibleP2D st.reviews d).map
        (fun r => r.rating)).sum / ((visibleP2D st.reviews d).length : ℚ)) })
      (fun a ha => ha) st.profiles] at hfind
    cases hsome : st.profiles.find? (fun x => x.user == d) with
    | none => rw [hsome] at hfind; cases hfind
    | some p0 =>
      rw [hsome] at hfind
      injection hfind with hfind
      rw [← hfind]
      rfl
  · exact absurd (List.length_eq_zero.mp (Nat.eq_zero_of_not_pos h)) hne

/-- Reviews {5,4,3} for driver 7, whose cache starts stale at 0. -/
def stEx1 : AppState where
  rides := []
  bookings := []
  profiles := [⟨7, 0, 0, 0⟩]
  reviews := [⟨1, 11, 1, 101, 7, .passengerToDriver, 5, true, 0⟩,
              ⟨2, 12, 1, 102, 7, .passengerToDriver, 4, true, 0⟩,
              ⟨3, 13, 1, 103, 7, .passengerToDriver, 3, true, 0⟩]
  nextBookingId := 1
  nextReviewId := 4

/-- Reviews {5,5,4,4,4} for driver 7, cache stale at 0. -/
def stEx2 : AppState where
  rides := []
  bookings := []
  profiles := [⟨7, 0, 0, 0⟩]
  reviews := [⟨1, 11, 1, 101, 7, .passengerToDriver, 5, true, 0⟩,
              ⟨2, 12, 1, 102, 7, .passengerToDriver, 5, true, 0⟩,
              ⟨3, 13, 1, 103, 7, .passengerToDriver, 4, true, 0⟩,
              ⟨4, 14, 1, 104, 7, .passengerToDriver, 4, true, 0⟩,
              ⟨5, 15, 1, 105, 7, .passengerToDriver, 4, true, 0⟩]
  nextBookingId := 1
  nextReviewId := 6


/-- **C5** — After every review create, update or delete whose
`reviewType` is passenger-to-driver (for create, the passenger path, whose
reviewee is the ride's driver), the stored profile rating of the affected
driver equals the arithmetic mean of `rating` over the full current set of
visible passenger-to-driver reviews, rounded to one decimal place —
recomputed wholesale, never adjusted incrementally.  Concretely, the
recompute over {5,4,3} stores 4.0 and over {5,5,4,4,4} stores 4.4 =
22/5. -/
theorem driverRating_recompute :
    (∀ (st : AppState) (uid bid : Nat) (rating : ℚ) (now : Nat) (st' : AppState)
      (b : Booking) (r : Ride),
      findBooking st bid = some b →
      findRide st b.ride = some r →
      b.passenger = uid →
      createReview st uid bid rating now = .ok st' →
      ratingCorrect st' r.driver) ∧
    (∀ (st : AppState) (uid revId : Nat) (rating : Option ℚ) (now : Nat)
      (st' : AppState) (rv : Review),
      findReviewBy st revId uid = some rv →
      rv.reviewType = .passengerToDriver →
      updateReview st uid revId rating now = .ok st' →
      ratingCorrect st' rv.reviewee) ∧
    (∀ (st : AppState) (uid revId now : Nat) (st' : AppState) (rv : Review),
      findReviewBy st revId uid = some rv →
      rv.reviewType = .passengerToDriver →
      deleteReview st uid revId now = .ok st' →
      ratingCorrect st' rv.reviewee) ∧
    (findProfile (updateDriverRating stEx1 7) 7).map DriverProfile.rating =
      some 4 ∧
    (findProfile (updateDriverRating stEx2 7) 7).map DriverProfile.rating =
      some (22/5) := by
  refine ⟨?_, ?_, ?_, ?_, ?_⟩
  · intro st uid bid rating now st' b r hb hr hpass h
    unfold createReview at h
    simp only [hb, hr] at h
    split at h
    · cases h
    split at h
    · cases h
    split at h
    · cases h
    simp [hpass] at h
    split at h
    · cases h
    injection h with h
    subst h
    exact ratingCorrect_updateDriverRating _ r.driver
  · intro st uid revId rating now st' rv hrv htype h
    unfold updateReview at h
    simp only [hrv] at h
    split at h
    · cases h
    split at h
    · cases h
    simp [htype] at h
    subst h
    exact ratingCorrect_updateDriverRating _ rv.reviewee
  · intro st uid revId now st' rv hrv htype h
    unfold deleteReview at h
    simp only [hrv] at h
    split at h
    · cases h
    simp [htype] at h
    subst h
    exact ratingCorrect_updateDriverRating _ rv.reviewee
  · simp [updateDriverRating, stEx1, visibleP2D, findProfile, updateFirst,
      List.filter, round1, jsRound]
    norm_num
  · simp [updateDriverRating, stEx2, visibleP2D, findProfile, updateFirst,
      List.filter, round1, jsRound]
    norm_num

/-- **C10** — When the rating recompute runs for a driver whose visible
passenger-to-driver review set is empty, it writes nothing, leaving the
profile at its previous value; in particular a `deleteReview` that removes
the driver's last such review leaves the whole profile list unchanged. -/
theorem updateDriverRating_empty_set_keeps_rating :
    (∀ (st : AppState) (d : Nat), visibleP2D st.reviews d = [] →
      updateDriverRating st d = st) ∧
    (∀ (st : AppState) (uid revId now : Nat) (st' : AppState) (rv : Review),
      findReviewBy st revId uid = some rv →
      deleteReview st uid revId now = .ok st' →
      visibleP2D st'.reviews rv.reviewee = [] →
      st'.profiles = st.profiles) := by
  refine ⟨updateDriverRating_empty, ?_⟩
  intro st uid revId now st' rv hrv h hempty
  unfold deleteReview at h
  simp only [hrv] at h
  split at h
  · cases h
  split at h
  · injection h with h
    subst h
    rw [updateDriverRating_reviews] at hempty
    rw [updateDriverRating_empty _ _ hempty]
  · injection h with h
    subst h
    rfl

/-- A completed booking of passenger 29 on driver 7's ride, ready for
review. -/
def bkC5 : Booking where
  id := 60
  ride := 7
  passenger := 29
  seatsBooked := 1
  farePerSeat := 40
  totalFare := 40
  status := .completed
  paymentStatus := .paid
  cancelledBy := none
  confirmedAt := some 900
  comingForPickupAt := some 910
  pickedUpAt := some 920
  droppedOffAt := some 930
  completedAt := some 940
  cancelledAt := none

/-- Driver 7's completed ride carrying `bkC5`. -/
def rdC5 : Ride where
  id := 7
  driver := 7
  departureDate := 9500
  departureTime := "16:00"
  totalSeats := 2
  availableSeats := 1
  farePerSeat := 40
  description := none
  status := .completed
  passengers := [60]

/-- Store in which passenger 29 may review driver 7, whose rating cache
starts at 0 with no reviews. -/
def stC5 : AppState where
  rides := [rdC5]
  bookings := [bkC5]
  profiles := [⟨7, 0, 0, 0⟩]
  reviews := []
  nextBookingId := 61
  nextReviewId := 80

/-- The store after passenger 29's 5-star review of driver 7. -/
def c5res : AppState := (createReview stC5 29 60 5 1000).toOption.getD stC5

/-- Witness for C5: creating the single 5-star passenger-to-driver review
recomputes driver 7's cached rating to 5. -/
theorem driverRating_recompute_witness :
    createReview stC5 29 60 5 1000 = .ok c5res ∧
    (findProfile c5res 7).map DriverProfile.rating = some 5 := by
  have hok : createReview stC5 29 60 (5 : ℚ) 1000 = .ok c5res := rfl
  have hrc := driverRating_recompute.1 stC5 29 60 5 1000 c5res bkC5 rdC5
    rfl rfl rfl hok
  have hne : visibleP2D c5res.reviews rdC5.driver ≠ [] := by decide
  have hp : findProfile c5res rdC5.driver =
      some ((findProfile c5res rdC5.driver).getD ⟨0, 0, 0, 0⟩) := rfl
  have hval := hrc hne _ hp
  refine ⟨hok, ?_⟩
  rw [show findProfile c5res 7 = some ((findProfile c5res rdC5.driver).getD ⟨0, 0, 0, 0⟩) from hp]
  rw [Option.map_some', hval]
  have hcomp : round1 (ratingMean c5res.reviews rdC5.driver) = 5 := by
    simp [c5res, createReview, stC5, bkC5, rdC5, findBooking, findRide,
      hasReviewBy, updateDriverRating, visibleP2D, ratingMean, round1, jsRound,
      updateFirst, List.filter]
    norm_num
  rw [hcomp]

/-- The single review of driver 7 in the C10 scenario. -/
def rvC10 : Review where
  id := 70
  booking := 16
  ride := 1
  reviewer := 30
  reviewee := 7
  reviewType := .passengerToDriver
  rating := 4
  isVisible := true
  createdAt := 0

/-- Store holding driver 7's profile (cached rating 9/2) and `rvC10` as
the driver's only review. -/
def stC10 : AppState where
  rides := []
  bookings := []
  profiles := [⟨7, 9/2, 3, 500⟩]
  reviews := [rvC10]
  nextBookingId := 1
  nextReviewId := 71

/-- The store after reviewer 30 deletes `rvC10`. -/
def c10res : AppState := (deleteReview stC10 30 70 1000).toOption.getD stC10

/-- Witness for C10: deleting the driver's last visible passenger-to-driver
review leaves the profile list — and so the cached rating 9/2 — exactly as
it was. -/
theorem updateDriverRating_empty_set_keeps_rating_witness :
    deleteReview stC10 30 70 1000 = .ok c10res ∧
    c10res.profiles = stC10.profiles ∧
    (findProfile c10res 7).map DriverProfile.rating = some (9/2) := by
  have hok : deleteReview stC10 30 70 1000 = .ok c10res := rfl
  have hpres := updateDriverRating_empty_set_keeps_rating.2 stC10 30 70 1000
    c10res rvC10 rfl hok rfl
  refine ⟨hok, hpres, ?_⟩
  show (findProfile c10res 7).map DriverProfile.rating = some (9/2)
  rfl
